import Mathlib

/-!
Shallow embedding of `central_prompt.py`: a facade (`CentralPrompt`) over two
prompt backends ("mlflow", registry-path based; "langfuse", name based),
with validators, provider normalization, a `PromptHandle` wrapper and its
`compile` operation.

Python dynamic values are modelled by `PyVal`; raised exceptions by
`Except PyError`.  Backend SDK calls (`mlflow.genai.register_prompt`,
`mlflow.genai.load_prompt`, `client.create_prompt`, `client.get_prompt`,
`underlying.format` / `underlying.compile`) are opaque oracles passed as
function parameters; each operation additionally returns the list of backend
calls it attempted, in order, so that "raised before any backend call" and
"called exactly once, no retry" are expressible.
-/

/-- A Python value, as far as this module inspects one.  Dict keys are
strings (all dict literals reaching the validators use string keys;
the validators only ever look up the string keys "role" and "content"). -/
inductive PyVal where
  | str (s : String)
  | int (n : Int)
  | bool (b : Bool)
  | none
  | list (xs : List PyVal)
  | dict (entries : List (String × PyVal))
deriving Repr

/-- Exception kinds raised by `central_prompt.py`.  `providerError` stands for
`PromptProviderError` (a `ValueError` subclass); `valueError` for a plain
`ValueError`; the remaining kinds for the module error classes. -/
inductive PyError where
  | valueError (msg : String)
  | providerError (msg : String)
  | creationError (msg : String)
  | fetchError (msg : String)
  | compilationError (msg : String)
  | importError (msg : String)
deriving Repr, DecidableEq

/-- Python `str.strip()`: drop whitespace from both ends (structural on the
character list, so that the kernel can evaluate it). -/
def pyStrip (s : String) : String :=
  String.mk (((s.data.dropWhile Char.isWhitespace).reverse.dropWhile Char.isWhitespace).reverse)

/-- Python `str.lower()` over the range exercised by this module. -/
def pyLower (s : String) : String :=
  String.mk (s.data.map Char.toLower)

/-- `_normalize_provider(provider)`: trim, lower-case, map aliases to the
canonical identifier, reject everything else with `PromptProviderError`. -/
def _normalize_provider (provider : PyVal) : Except PyError String :=
  match provider with
  | PyVal.str s =>
    let value := pyLower (pyStrip s)
    if value = "mlflow" ∨ value = "ml-flow" then Except.ok "mlflow"
    else if value = "langfuse" ∨ value = "lang-fuse" then Except.ok "langfuse"
    else Except.error (PyError.providerError "Unsupported provider; use \x27mlflow\x27 or \x27langfuse\x27")
  | _ => Except.error (PyError.providerError "provider must be a string")

/-- First value of a Python dict at string key `k` (dict keys are unique,
so first match is the match). -/
def dictGet (entries : List (String × PyVal)) (k : String) : Option PyVal :=
  (entries.find? (fun p => p.1 = k)).map (fun p => p.2)

/-- The per-item check of `_is_chat_template`: the item is a dict, has
"role" and "content" keys, and both values are strings. -/
def isChatItem (item : PyVal) : Bool :=
  match item with
  | PyVal.dict es =>
    match dictGet es "role", dictGet es "content" with
    | some (PyVal.str _), some (PyVal.str _) => true
    | _, _ => false
  | _ => false

/-- `_is_chat_template(obj)`: a list each of whose items passes `isChatItem`. -/
def _is_chat_template (obj : PyVal) : Bool :=
  match obj with
  | PyVal.list xs => xs.all isChatItem
  | _ => false

/-- `_validate_name(name)`: must be a string with non-empty strip. -/
def _validate_name (name : PyVal) : Except PyError Unit :=
  match name with
  | PyVal.str s =>
    if pyStrip s = "" then Except.error (PyError.valueError "name must be a non-empty string")
    else Except.ok ()
  | _ => Except.error (PyError.valueError "name must be a non-empty string")

/-- `_validate_template(template)`: a string, or a chat-template list. -/
def _validate_template (template : PyVal) : Except PyError Unit :=
  match template with
  | PyVal.str _ => Except.ok ()
  | _ =>
    if _is_chat_template template then Except.ok ()
    else Except.error (PyError.valueError "template must be a string or a chat template list of \x7brole, content\x7d dicts")

/-- `_validate_labels(labels)`: `None`, or a list of strings. -/
def _validate_labels (labels : Option PyVal) : Except PyError Unit :=
  match labels with
  | Option.none => Except.ok ()
  | some (PyVal.list xs) =>
    if xs.all (fun x => match x with | PyVal.str _ => true | _ => false) then Except.ok ()
    else Except.error (PyError.valueError "labels must be a list of strings")
  | some _ => Except.error (PyError.valueError "labels must be a list of strings")

/-- The inline tags check of `set_prompt`: `None`, or a dict whose values are
all strings (keys are strings by the `PyVal.dict` representation). -/
def _validate_tags (tags : Option PyVal) : Except PyError Unit :=
  match tags with
  | Option.none => Except.ok ()
  | some (PyVal.dict es) =>
    if es.all (fun p => match p.2 with | PyVal.str _ => true | _ => false) then Except.ok ()
    else Except.error (PyError.valueError "tags must be a dict[str, str]")
  | some _ => Except.error (PyError.valueError "tags must be a dict[str, str]")

/-- `pre` is a prefix of `s` (both as character lists). -/
def startsWithChars (s pre : List Char) : Bool :=
  match pre, s with
  | [], _ => true
  | _ :: _, [] => false
  | p :: ps, c :: cs => decide (p = c) && startsWithChars cs ps

/-- Split a character list at every occurrence of `sep` (the semantics of
Python `str.split(sep)` for a one-character separator). -/
def splitChars (sep : Char) : List Char → List (List Char)
  | [] => [[]]
  | c :: cs =>
    match splitChars sep cs with
    | [] => [[c]]
    | h :: t => if c = sep then [] :: h :: t else (c :: h) :: t

/-- Decimal value of a digit string, the semantics of Python `int(...)` on a
string of ASCII digits. -/
def digitsToNat (cs : List Char) : Nat :=
  cs.foldl (fun acc c => acc * 10 + (c.toNat - 48)) 0

/-- Combined match-and-extract for the two anchored regexes of `get_prompt`:
`^prompts:/[^/]+/\d+$` (validation) and `^prompts:/([^/]+)/([0-9]+)$`
(extraction); over the modelled strings the two coincide.  A match is a
`prompts:/` prefix followed by exactly one non-empty slash-free name
segment, a slash, and a non-empty digit segment; on a match the name group
and the numeric value of the version group are returned. -/
def parsePromptPath (s : String) : Option (String × Nat) :=
  if startsWithChars s.data "prompts:/".data then
    match splitChars '/' (s.data.drop 9) with
    | [n, v] =>
      if n ≠ [] ∧ v ≠ [] ∧ v.all Char.isDigit then some (String.mk n, digitsToNat v)
      else Option.none
    | _ => Option.none
  else Option.none

/-- `re.match(r"^prompts:/[^/]+/\d+$", target)` as a Boolean. -/
def matchesPromptPath (s : String) : Bool :=
  (parsePromptPath s).isSome

/-- The opaque object a backend call returns: its `name` / `version`
attributes when present (read with `getattr(..., default)`), and its
`format` / `compile` rendering behaviour (used by `PromptHandle.compile`). -/
structure PromptObj where
  nameAttr : Option String
  versionAttr : Option Int
  formatFn : List (String × PyVal) → Except String PyVal
  compileFn : List (String × PyVal) → Except String PyVal

/-- A backend SDK call attempted by the facade, with its arguments. -/
inductive BackendCall where
  | registerPrompt (kwargs : List (String × PyVal))
  | createPrompt (payload : List (String × PyVal))
  | loadPrompt (target : String)
  | clientGetPrompt (name : String) (version : Option Int) (label : Option String)
  | render (provider : String) (vars : List (String × PyVal))

/-- Result of an operation: the backend calls attempted, in order, and the
returned value or raised exception. -/
structure Outcome (α : Type) where
  calls : List BackendCall
  result : Except PyError α

/-- `PromptHandle.__init__`: defensively re-normalizes the provider, keeps the
underlying object, and takes `name` / `version` from the explicit arguments
when given, else from the underlying object's attributes. -/
structure PromptHandle where
  provider : String
  underlying : PromptObj
  name : Option String
  version : Option Int

def PromptHandle.make (provider : String) (underlying : PromptObj)
    (name : Option String) (version : Option Int) : Except PyError PromptHandle :=
  match _normalize_provider (PyVal.str provider) with
  | Except.error e => Except.error e
  | Except.ok p =>
    Except.ok
      { provider := p
        underlying := underlying
        name := match name with
          | some n => some n
          | Option.none => underlying.nameAttr
        version := match version with
          | some v => some v
          | Option.none => underlying.versionAttr }

/-- The mlflow branch of `set_prompt` (after the common validations):
requires `mlflow.genai` (modelled by `genaiAvailable`), builds kwargs,
calls `mlflow.genai.register_prompt`, wraps failures in
`PromptCreationError`, and reads `name` / `version` off the returned
object with the input name / `None` as defaults. -/
def setPromptMlflow (genaiAvailable : Bool)
    (register_prompt : List (String × PyVal) → Except String PromptObj)
    (name template : PyVal) (response_format : Option PyVal)
    (commit_message : Option String) (tags : Option PyVal) : Outcome PyVal :=
  if genaiAvailable then
    let kwargs : List (String × PyVal) :=
      [("name", name), ("template", template)]
        ++ (match response_format with
            | some r => [("response_format", r)]
            | Option.none => [])
        ++ (match commit_message with
            | some c => [("commit_message", PyVal.str c)]
            | Option.none => [])
        ++ (match tags with
            | some t => [("tags", t)]
            | Option.none => [])
    match register_prompt kwargs with
    | Except.error e =>
      Outcome.mk [BackendCall.registerPrompt kwargs]
        (Except.error (PyError.creationError ("MLflow prompt creation failed: " ++ e)))
    | Except.ok obj =>
      Outcome.mk [BackendCall.registerPrompt kwargs]
        (Except.ok (PyVal.dict
          [("provider", PyVal.str "mlflow"),
           ("name", match obj.nameAttr with
             | some s => PyVal.str s
             | Option.none => name),
           ("version", match obj.versionAttr with
             | some v => PyVal.int v
             | Option.none => PyVal.none)]))
  else
    Outcome.mk []
      (Except.error (PyError.importError "mlflow.genai is not available. Please upgrade mlflow to a version that supports genai."))

/-- The langfuse branch of `set_prompt` (after the common validations):
derives the effective type (`prompt_type or ("chat" if chat-shaped else
"text")`, with a falsy empty string also falling back to the shape), checks
it against the template shape, builds the payload, calls
`client.create_prompt`, and wraps failures in `PromptCreationError`. -/
def setPromptLangfuse
    (create_prompt : List (String × PyVal) → Except String Unit)
    (name template : PyVal) (prompt_type : Option String)
    (labels : Option PyVal) : Outcome PyVal :=
  let derived_type : String :=
    match prompt_type with
    | some t =>
      if t = "" then (if _is_chat_template template then "chat" else "text") else t
    | Option.none => if _is_chat_template template then "chat" else "text"
  if derived_type ≠ "text" ∧ derived_type ≠ "chat" then
    Outcome.mk [] (Except.error (PyError.valueError "prompt_type must be \x27text\x27 or \x27chat\x27"))
  else if derived_type = "chat" ∧ ¬ _is_chat_template template then
    Outcome.mk [] (Except.error (PyError.valueError "For prompt_type=\x27chat\x27, template must be a list of \x7brole, content\x7d dicts"))
  else if derived_type = "text" ∧ (match template with | PyVal.str _ => false | _ => true) = true then
    Outcome.mk [] (Except.error (PyError.valueError "For prompt_type=\x27text\x27, template must be a string"))
  else
    let payload : List (String × PyVal) :=
      [("name", name), ("type", PyVal.str derived_type), ("prompt", template)]
        ++ (match labels with
            | some l => [("labels", l)]
            | Option.none => [])
    match create_prompt payload with
    | Except.error e =>
      Outcome.mk [BackendCall.createPrompt payload]
        (Except.error (PyError.creationError
          ("Langfuse prompt creation failed: " ++ e ++ ". Ensure LANGFUSE credentials are configured.")))
    | Except.ok _ =>
      Outcome.mk [BackendCall.createPrompt payload]
        (Except.ok (PyVal.dict [("provider", PyVal.str "langfuse"), ("name", name)]))

/-- `CentralPrompt.set_prompt`: run the four validations in order, then
dispatch on the (construction-normalized) provider. -/
def setPrompt (provider : String) (genaiAvailable : Bool)
    (register_prompt : List (String × PyVal) → Except String PromptObj)
    (create_prompt : List (String × PyVal) → Except String Unit)
    (name template : PyVal) (prompt_type : Option String)
    (labels : Option PyVal) (tags : Option PyVal)
    (response_format : Option PyVal) (commit_message : Option String) : Outcome PyVal :=
  match _validate_name name with
  | Except.error e => Outcome.mk [] (Except.error e)
  | Except.ok _ =>
  match _validate_template template with
  | Except.error e => Outcome.mk [] (Except.error e)
  | Except.ok _ =>
  match _validate_labels labels with
  | Except.error e => Outcome.mk [] (Except.error e)
  | Except.ok _ =>
  match _validate_tags tags with
  | Except.error e => Outcome.mk [] (Except.error e)
  | Except.ok _ =>
  if provider = "mlflow" then
    setPromptMlflow genaiAvailable register_prompt name template response_format commit_message tags
  else if provider = "langfuse" then
    setPromptLangfuse create_prompt name template prompt_type labels
  else
    Outcome.mk [] (Except.error (PyError.providerError "Unsupported provider; use \x27mlflow\x27 or \x27langfuse\x27"))

/-- The part of the mlflow `get_prompt` branch from the resolved target path
on: check the target against the path regex, call
`mlflow.genai.load_prompt`, wrap failures in `PromptFetchError`, and build
the handle from the name / version re-extracted from the path. -/
def getPromptMlflowTarget
    (load_prompt : String → Except String PromptObj)
    (target : String) : Outcome PromptHandle :=
  if ¬ matchesPromptPath target then
    Outcome.mk [] (Except.error (PyError.valueError "mlflow \x27path\x27 must be of the form \x27prompts:/<name>/<version>\x27"))
  else
    match load_prompt target with
    | Except.error e =>
      Outcome.mk [BackendCall.loadPrompt target]
        (Except.error (PyError.fetchError ("MLflow load_prompt failed for \x27" ++ target ++ "\x27: " ++ e)))
    | Except.ok obj =>
      let extracted := parsePromptPath target
      let nameExtracted : Option String := extracted.map (fun p => p.1)
      let verExtracted : Option Int := extracted.map (fun p => Int.ofNat p.2)
      match PromptHandle.make "mlflow" obj nameExtracted verExtracted with
      | Except.error e => Outcome.mk [BackendCall.loadPrompt target] (Except.error e)
      | Except.ok h => Outcome.mk [BackendCall.loadPrompt target] (Except.ok h)

/-- The mlflow branch of `get_prompt`: the target path is `path` when given;
otherwise `name` must be non-falsy and `version` a present positive
integer, and the target is assembled as `prompts:/<name>/<version>`.
Either way the target then goes through `getPromptMlflowTarget`. -/
def getPromptMlflow
    (load_prompt : String → Except String PromptObj)
    (name : Option String) (version : Option Int)
    (path : Option String) : Outcome PromptHandle :=
  match path with
  | some p => getPromptMlflowTarget load_prompt p
  | Option.none =>
    match name, version with
    | Option.none, _ =>
      Outcome.mk [] (Except.error (PyError.valueError "For mlflow, provide either \x27path\x27 or both \x27name\x27 and \x27version\x27"))
    | some _, Option.none =>
      Outcome.mk [] (Except.error (PyError.valueError "For mlflow, provide either \x27path\x27 or both \x27name\x27 and \x27version\x27"))
    | some n, some v =>
      if n = "" then
        Outcome.mk [] (Except.error (PyError.valueError "For mlflow, provide either \x27path\x27 or both \x27name\x27 and \x27version\x27"))
      else if v < 1 then
        Outcome.mk [] (Except.error (PyError.valueError "version must be a positive integer"))
      else getPromptMlflowTarget load_prompt ("prompts:/" ++ n ++ "/" ++ toString v)

/-- The langfuse branch of `get_prompt` (on a constructed instance, whose
client was acquired at `__init__`): validate `name` / `label` / the
`version`-`label` exclusion, call `client.get_prompt`, wrap failures in
`PromptFetchError`, treat a `None` result as `PromptFetchError`, and build
the handle from the caller-supplied `name` / `version`. -/
def getPromptLangfuse
    (client_get_prompt : String → Option Int → Option String → Except String (Option PromptObj))
    (name : Option String) (version : Option Int)
    (label : Option String) : Outcome PromptHandle :=
  match name with
  | Option.none =>
    Outcome.mk [] (Except.error (PyError.valueError "For langfuse, \x27name\x27 is required and must be a string"))
  | some n =>
    if n = "" then
      Outcome.mk [] (Except.error (PyError.valueError "For langfuse, \x27name\x27 is required and must be a string"))
    else if version ≠ Option.none ∧ label ≠ Option.none then
      Outcome.mk [] (Except.error (PyError.valueError "For langfuse, provide either \x27version\x27 or \x27label\x27, not both"))
    else
      match client_get_prompt n version label with
      | Except.error e =>
        Outcome.mk [BackendCall.clientGetPrompt n version label]
          (Except.error (PyError.fetchError ("Langfuse get_prompt failed for \x27" ++ n ++ "\x27: " ++ e)))
      | Except.ok Option.none =>
        Outcome.mk [BackendCall.clientGetPrompt n version label]
          (Except.error (PyError.fetchError ("Langfuse prompt \x27" ++ n ++ "\x27 not found")))
      | Except.ok (some obj) =>
        match PromptHandle.make "langfuse" obj (some n) version with
        | Except.error e => Outcome.mk [BackendCall.clientGetPrompt n version label] (Except.error e)
        | Except.ok h => Outcome.mk [BackendCall.clientGetPrompt n version label] (Except.ok h)

/-- `CentralPrompt.get_prompt`: dispatch on the provider. -/
def getPrompt (provider : String)
    (load_prompt : String → Except String PromptObj)
    (client_get_prompt : String → Option Int → Option String → Except String (Option PromptObj))
    (name : Option String) (version : Option Int)
    (path : Option String) (label : Option String) : Outcome PromptHandle :=
  if provider = "mlflow" then
    getPromptMlflow load_prompt name version path
  else if provider = "langfuse" then
    getPromptLangfuse client_get_prompt name version label
  else
    Outcome.mk [] (Except.error (PyError.providerError "Unsupported provider; use \x27mlflow\x27 or \x27langfuse\x27"))

/-- `PromptHandle.compile(**vars)`: dispatch on the provider to the
underlying object's `format` (mlflow) or `compile` (langfuse) call; wrap
any exception in `PromptCompilationError`; an unrecognized provider tag is
a `PromptProviderError` raised with no backend call. -/
def PromptHandle.compile (h : PromptHandle)
    (vars : List (String × PyVal)) : Outcome PyVal :=
  if h.provider = "mlflow" then
    match h.underlying.formatFn vars with
    | Except.error e =>
      Outcome.mk [BackendCall.render "mlflow" vars]
        (Except.error (PyError.compilationError ("Failed to compile prompt for provider \x27" ++ h.provider ++ "\x27: " ++ e)))
    | Except.ok v => Outcome.mk [BackendCall.render "mlflow" vars] (Except.ok v)
  else if h.provider = "langfuse" then
    match h.underlying.compileFn vars with
    | Except.error e =>
      Outcome.mk [BackendCall.render "langfuse" vars]
        (Except.error (PyError.compilationError ("Failed to compile prompt for provider \x27" ++ h.provider ++ "\x27: " ++ e)))
    | Except.ok v => Outcome.mk [BackendCall.render "langfuse" vars] (Except.ok v)
  else
    Outcome.mk [] (Except.error (PyError.providerError "Unsupported provider; use \x27mlflow\x27 or \x27langfuse\x27"))

/-- `sub` occurs as a substring of `s`. -/
def strContains (s sub : String) : Prop :=
  ∃ p q, s = p ++ sub ++ q

theorem strContains_append_left (p e : String) : strContains (p ++ e) e :=
  ⟨p, "", by rw [String.append_empty]⟩

theorem strContains_middle (p e q : String) : strContains (p ++ e ++ q) e :=
  ⟨p, q, rfl⟩

/-- The claim's wording for one chat item: a dict containing string-typed
`role` and `content` entries. -/
def chatItemSpec (item : PyVal) : Prop :=
  ∃ entries, item = PyVal.dict entries ∧
    (∃ r, dictGet entries "role" = some (PyVal.str r)) ∧
    (∃ c, dictGet entries "content" = some (PyVal.str c))

/-- The claim's wording for a valid template: a string, or a list every
element of which satisfies `chatItemSpec`. -/
def templateSpec (v : PyVal) : Prop :=
  (∃ s, v = PyVal.str s) ∨ (∃ xs, v = PyVal.list xs ∧ ∀ item ∈ xs, chatItemSpec item)

theorem isChatItem_iff (item : PyVal) : isChatItem item = true ↔ chatItemSpec item := by
  cases item <;> simp [isChatItem, chatItemSpec]
  case dict es =>
    rcases hr : dictGet es "role" with _ | r
    · simp [hr]
    · rcases hc : dictGet es "content" with _ | c
      · cases r <;> simp [hr, hc]
      · cases r <;> cases c <;> simp [hr, hc]

/-- C2: a string whose strip-and-lower-case form is one of the accepted
aliases normalizes to the corresponding canonical provider; every other
string, and every non-string, raises the `PromptProviderError`. -/
theorem normalize_provider_contract :
    (∀ s : String, pyLower (pyStrip s) = "mlflow" ∨ pyLower (pyStrip s) = "ml-flow" →
      _normalize_provider (PyVal.str s) = Except.ok "mlflow") ∧
    (∀ s : String, pyLower (pyStrip s) = "langfuse" ∨ pyLower (pyStrip s) = "lang-fuse" →
      _normalize_provider (PyVal.str s) = Except.ok "langfuse") ∧
    (∀ s : String, pyLower (pyStrip s) ≠ "mlflow" → pyLower (pyStrip s) ≠ "ml-flow" →
      pyLower (pyStrip s) ≠ "langfuse" → pyLower (pyStrip s) ≠ "lang-fuse" →
      _normalize_provider (PyVal.str s) =
        Except.error (PyError.providerError "Unsupported provider; use \x27mlflow\x27 or \x27langfuse\x27")) ∧
    (∀ v : PyVal, (∀ s : String, v ≠ PyVal.str s) →
      _normalize_provider v = Except.error (PyError.providerError "provider must be a string")) := by
  refine ⟨?_, ?_, ?_, ?_⟩
  · intro s h
    rcases h with h | h <;> simp [_normalize_provider, h]
  · intro s h
    rcases h with h | h <;> simp [_normalize_provider, h]
  · intro s h1 h2 h3 h4
    simp [_normalize_provider, h1, h2, h3, h4]
  · intro v h
    cases v with
    | str s => exact absurd rfl (h s)
    | int n => rfl
    | bool b => rfl
    | none => rfl
    | list xs => rfl
    | dict es => rfl

/-- C2 witness: the mixed-case hyphenated alias " ML-Flow " normalizes to
"mlflow", and the non-string `3` raises the provider error. -/
theorem normalize_provider_contract_witness :
    _normalize_provider (PyVal.str " ML-Flow ") = Except.ok "mlflow" ∧
    _normalize_provider (PyVal.int 3) = Except.error (PyError.providerError "provider must be a string") :=
  ⟨normalize_provider_contract.1 " ML-Flow " (Or.inr rfl),
   normalize_provider_contract.2.2.2 (PyVal.int 3) (fun _ h => PyVal.noConfusion h)⟩

/-- C6: `_validate_template` accepts exactly the strings and the lists of
role/content dicts with string values; in particular it accepts
"hello {x}" and `[{"role": "user", "content": "hi"}]` and rejects `123`,
`[{"role": "user"}]` and `["not a dict"]` with a `ValueError`. -/
theorem validate_template_characterization :
    (∀ v, _validate_template v = Except.ok () ↔ templateSpec v) ∧
    _validate_template (PyVal.str "hello \x7bx\x7d") = Except.ok () ∧
    _validate_template (PyVal.list [PyVal.dict [("role", PyVal.str "user"), ("content", PyVal.str "hi")]]) = Except.ok () ∧
    _validate_template (PyVal.int 123) =
      Except.error (PyError.valueError "template must be a string or a chat template list of \x7brole, content\x7d dicts") ∧
    _validate_template (PyVal.list [PyVal.dict [("role", PyVal.str "user")]]) =
      Except.error (PyError.valueError "template must be a string or a chat template list of \x7brole, content\x7d dicts") ∧
    _validate_template (PyVal.list [PyVal.str "not a dict"]) =
      Except.error (PyError.valueError "template must be a string or a chat template list of \x7brole, content\x7d dicts") := by
  refine ⟨?_, rfl, rfl, rfl, rfl, rfl⟩
  intro v
  cases v with
  | str s => simp [_validate_template, templateSpec]
  | list xs =>
    simp [_validate_template, _is_chat_template, templateSpec, List.all_eq_true, isChatItem_iff]
  | int n => simp [_validate_template, _is_chat_template, templateSpec]
  | bool b => simp [_validate_template, _is_chat_template, templateSpec]
  | none => simp [_validate_template, _is_chat_template, templateSpec]
  | dict es => simp [_validate_template, _is_chat_template, templateSpec]

/-- C1 counterexample: for the mlflow instance, `set_prompt` with
`prompt_type="chat"` and the plain-string template "hello" does NOT raise a
validation error — the backend `register_prompt` call is attempted (one
call, with the name/template kwargs) and the operation returns the success
record.  The mlflow branch never inspects `prompt_type`. -/
theorem set_prompt_chat_string_mlflow_counterexample :
    (setPrompt "mlflow" true
      (fun _ => Except.ok (PromptObj.mk Option.none Option.none
        (fun _ => Except.ok PyVal.none) (fun _ => Except.ok PyVal.none)))
      (fun _ => Except.ok ())
      (PyVal.str "n") (PyVal.str "hello") (some "chat")
      Option.none Option.none Option.none Option.none).calls =
      [BackendCall.registerPrompt [("name", PyVal.str "n"), ("template", PyVal.str "hello")]] ∧
    (setPrompt "mlflow" true
      (fun _ => Except.ok (PromptObj.mk Option.none Option.none
        (fun _ => Except.ok PyVal.none) (fun _ => Except.ok PyVal.none)))
      (fun _ => Except.ok ())
      (PyVal.str "n") (PyVal.str "hello") (some "chat")
      Option.none Option.none Option.none Option.none).result =
      Except.ok (PyVal.dict [("provider", PyVal.str "mlflow"), ("name", PyVal.str "n"), ("version", PyVal.none)]) :=
  ⟨rfl, rfl⟩

/-- C1 amended: for the langfuse instance, `set_prompt` with
`prompt_type="chat"` and a plain-string template raises a `ValueError`
with no backend call; for the mlflow instance `prompt_type` is ignored and
the call proceeds to the backend `register_prompt` call. -/
theorem set_prompt_chat_string_validation
    (register_prompt : List (String × PyVal) → Except String PromptObj)
    (create_prompt : List (String × PyVal) → Except String Unit)
    (g : Bool) (n tpl : String) (hn : pyStrip n ≠ "") :
    (setPrompt "langfuse" g register_prompt create_prompt (PyVal.str n) (PyVal.str tpl) (some "chat")
        Option.none Option.none Option.none Option.none).calls = [] ∧
    (setPrompt "langfuse" g register_prompt create_prompt (PyVal.str n) (PyVal.str tpl) (some "chat")
        Option.none Option.none Option.none Option.none).result =
      Except.error (PyError.valueError "For prompt_type=\x27chat\x27, template must be a list of \x7brole, content\x7d dicts") ∧
    (setPrompt "mlflow" true register_prompt create_prompt (PyVal.str n) (PyVal.str tpl) (some "chat")
        Option.none Option.none Option.none Option.none).calls =
      [BackendCall.registerPrompt [("name", PyVal.str n), ("template", PyVal.str tpl)]] := by
  refine ⟨?_, ?_, ?_⟩ <;>
    · simp [setPrompt, setPromptLangfuse, setPromptMlflow, _validate_name, _validate_template,
        _validate_labels, _validate_tags, _is_chat_template, hn]
      try rcases register_prompt [("name", PyVal.str n), ("template", PyVal.str tpl)] with _ | _ <;> rfl

/-- C1 witness for the amended theorem, at name "n" and template "hello". -/
theorem set_prompt_chat_string_validation_witness :
    pyStrip "n" ≠ "" ∧
    (setPrompt "langfuse" true (fun _ => Except.error "e") (fun _ => Except.ok ())
        (PyVal.str "n") (PyVal.str "hello") (some "chat")
        Option.none Option.none Option.none Option.none).calls = [] :=
  ⟨by decide,
   (set_prompt_chat_string_validation (fun _ => Except.error "e") (fun _ => Except.ok ())
      true "n" "hello" (by decide)).1⟩

/-- C4: for the langfuse instance, `get_prompt` with both a version and a
label raises a `ValueError` (the mutual-exclusion message when the name is
a non-empty string, the name-required message otherwise) and attempts no
backend fetch call. -/
theorem langfuse_get_version_label_exclusive
    (load_prompt : String → Except String PromptObj)
    (client_get_prompt : String → Option Int → Option String → Except String (Option PromptObj))
    (name : Option String) (v : Int) (l : String) :
    (getPrompt "langfuse" load_prompt client_get_prompt name (some v) Option.none (some l)).calls = [] ∧
    (∃ m, (getPrompt "langfuse" load_prompt client_get_prompt name (some v) Option.none (some l)).result =
      Except.error (PyError.valueError m)) ∧
    (∀ n, name = some n → n ≠ "" →
      (getPrompt "langfuse" load_prompt client_get_prompt name (some v) Option.none (some l)).result =
        Except.error (PyError.valueError "For langfuse, provide either \x27version\x27 or \x27label\x27, not both")) := by
  refine ⟨?_, ?_, ?_⟩
  · cases name with
    | none => rfl
    | some n =>
      by_cases hn : n = "" <;> simp [getPrompt, getPromptLangfuse, hn]
  · cases name with
    | none => exact ⟨"For langfuse, \x27name\x27 is required and must be a string", rfl⟩
    | some n =>
      by_cases hn : n = ""
      · exact ⟨"For langfuse, \x27name\x27 is required and must be a string", by simp [getPrompt, getPromptLangfuse, hn]⟩
      · exact ⟨"For langfuse, provide either \x27version\x27 or \x27label\x27, not both", by simp [getPrompt, getPromptLangfuse, hn]⟩
  · intro n hname hn
    subst hname
    simp [getPrompt, getPromptLangfuse, hn]

/-- C4 witness at name "greet", version 2, label "prod". -/
theorem langfuse_get_version_label_exclusive_witness :
    (getPrompt "langfuse" (fun _ => Except.error "e") (fun _ _ _ => Except.error "e")
        (some "greet") (some 2) Option.none (some "prod")).result =
      Except.error (PyError.valueError "For langfuse, provide either \x27version\x27 or \x27label\x27, not both") :=
  (langfuse_get_version_label_exclusive (fun _ => Except.error "e") (fun _ _ _ => Except.error "e")
      (some "greet") 2 "prod").2.2 "greet" rfl (by decide)

/-- C7: for the langfuse instance, when the backend `get_prompt` call
returns `None` without raising, the operation raises a `PromptFetchError`
whose message contains the requested prompt name. -/
theorem langfuse_get_none_fetch_error
    (load_prompt : String → Except String PromptObj)
    (client_get_prompt : String → Option Int → Option String → Except String (Option PromptObj))
    (n : String) (hn : n ≠ "") (version : Option Int)
    (hget : ∀ nm vv ll, client_get_prompt nm vv ll = Except.ok Option.none) :
    (getPrompt "langfuse" load_prompt client_get_prompt (some n) version Option.none Option.none).result =
      Except.error (PyError.fetchError ("Langfuse prompt \x27" ++ n ++ "\x27 not found")) ∧
    strContains ("Langfuse prompt \x27" ++ n ++ "\x27 not found") n := by
  refine ⟨?_, strContains_middle _ _ _⟩
  simp [getPrompt, getPromptLangfuse, hn, hget]

/-- C7 witness at name "greet" with no version. -/
theorem langfuse_get_none_fetch_error_witness :
    (getPrompt "langfuse" (fun _ => Except.error "e") (fun _ _ _ => Except.ok Option.none)
        (some "greet") Option.none Option.none Option.none).result =
      Except.error (PyError.fetchError ("Langfuse prompt \x27" ++ "greet" ++ "\x27 not found")) :=
  (langfuse_get_none_fetch_error (fun _ => Except.error "e") (fun _ _ _ => Except.ok Option.none)
      "greet" (by decide) Option.none (fun _ _ _ => rfl)).1

/-- C3: for the mlflow instance, `get_prompt` with `path="prompts:/greeting/3"`
and a non-failing backend load returns a handle with name "greeting" and
version 3, whatever name/version arguments the caller supplied; with
`path="prompts:/greeting/abc"` it raises a `ValueError` with no backend
call, because the version segment is non-digit. -/
theorem mlflow_get_prompt_path_extraction
    (load_prompt : String → Except String PromptObj)
    (client_get_prompt : String → Option Int → Option String → Except String (Option PromptObj))
    (obj : PromptObj) (hload : ∀ t, load_prompt t = Except.ok obj)
    (nameArg : Option String) (versionArg : Option Int) :
    ((getPrompt "mlflow" load_prompt client_get_prompt nameArg versionArg (some "prompts:/greeting/3") Option.none).result.map
        (fun h => (h.name, h.version)) = Except.ok (some "greeting", some 3)) ∧
    ((getPrompt "mlflow" load_prompt client_get_prompt nameArg versionArg (some "prompts:/greeting/abc") Option.none).calls = []) ∧
    ((getPrompt "mlflow" load_prompt client_get_prompt nameArg versionArg (some "prompts:/greeting/abc") Option.none).result =
      Except.error (PyError.valueError "mlflow \x27path\x27 must be of the form \x27prompts:/<name>/<version>\x27")) := by
  refine ⟨?_, rfl, rfl⟩
  have h1 := hload "prompts:/greeting/3"
  simp [getPrompt, getPromptMlflow, getPromptMlflowTarget, h1, PromptHandle.make, Except.map,
    show matchesPromptPath "prompts:/greeting/3" = true from rfl,
    show parsePromptPath "prompts:/greeting/3" = some ("greeting", 3) from rfl,
    show _normalize_provider (PyVal.str "mlflow") = Except.ok "mlflow" from rfl]

/-- C3 witness, with a backend object carrying different name/version
attributes, which the extracted values take precedence over. -/
theorem mlflow_get_prompt_path_extraction_witness :
    ((getPrompt "mlflow"
        (fun _ => Except.ok (PromptObj.mk (some "other") (some 9)
          (fun _ => Except.ok PyVal.none) (fun _ => Except.ok PyVal.none)))
        (fun _ _ _ => Except.error "e")
        (some "caller-name") (some 7) (some "prompts:/greeting/3") Option.none).result.map
      (fun h => (h.name, h.version)) = Except.ok (some "greeting", some 3)) :=
  (mlflow_get_prompt_path_extraction
    (fun _ => Except.ok (PromptObj.mk (some "other") (some 9)
      (fun _ => Except.ok PyVal.none) (fun _ => Except.ok PyVal.none)))
    (fun _ _ _ => Except.error "e")
    (PromptObj.mk (some "other") (some 9)
      (fun _ => Except.ok PyVal.none) (fun _ => Except.ok PyVal.none))
    (fun _ => rfl) (some "caller-name") (some 7)).1

/-- C8: for the mlflow instance, a successful `set_prompt` returns the dict
`{provider, name, version}` with `name` the backend object's name
attribute (defaulting to the input name when absent) and `version` the
backend object's version attribute (None when absent). -/
theorem mlflow_set_prompt_result_record
    (register_prompt : List (String × PyVal) → Except String PromptObj)
    (create_prompt : List (String × PyVal) → Except String Unit)
    (obj : PromptObj) (hreg : ∀ kw, register_prompt kw = Except.ok obj)
    (name template : PyVal) (prompt_type : Option String)
    (labels tags response_format : Option PyVal) (commit_message : Option String)
    (h1 : _validate_name name = Except.ok ()) (h2 : _validate_template template = Except.ok ())
    (h3 : _validate_labels labels = Except.ok ()) (h4 : _validate_tags tags = Except.ok ()) :
    (setPrompt "mlflow" true register_prompt create_prompt name template prompt_type
        labels tags response_format commit_message).result =
      Except.ok (PyVal.dict
        [("provider", PyVal.str "mlflow"),
         ("name", (obj.nameAttr.map PyVal.str).getD name),
         ("version", (obj.versionAttr.map PyVal.int).getD PyVal.none)]) := by
  rcases obj with ⟨na, va, f, c⟩
  cases na <;> cases va <;>
    simp [setPrompt, setPromptMlflow, h1, h2, h3, h4, hreg]

/-- C8 witness: a backend object with no name attribute and version 5 gives
back the input name and version 5. -/
theorem mlflow_set_prompt_result_record_witness :
    (setPrompt "mlflow" true
        (fun _ => Except.ok (PromptObj.mk Option.none (some 5)
          (fun _ => Except.ok PyVal.none) (fun _ => Except.ok PyVal.none)))
        (fun _ => Except.ok ())
        (PyVal.str "greet") (PyVal.str "hello") Option.none
        Option.none Option.none Option.none Option.none).result =
      Except.ok (PyVal.dict
        [("provider", PyVal.str "mlflow"),
         ("name", PyVal.str "greet"),
         ("version", PyVal.int 5)]) :=
  mlflow_set_prompt_result_record
    (fun _ => Except.ok (PromptObj.mk Option.none (some 5)
      (fun _ => Except.ok PyVal.none) (fun _ => Except.ok PyVal.none)))
    (fun _ => Except.ok ())
    (PromptObj.mk Option.none (some 5)
      (fun _ => Except.ok PyVal.none) (fun _ => Except.ok PyVal.none))
    (fun _ => rfl)
    (PyVal.str "greet") (PyVal.str "hello") Option.none
    Option.none Option.none Option.none Option.none
    rfl rfl rfl rfl

/-- C9: the empty list is a valid template (it vacuously passes the chat
predicate), and for the langfuse instance `set_prompt` with `template=[]`
and no explicit `prompt_type` infers type "chat" and proceeds to the
backend `create_prompt` call — the outcome is never a `ValueError`. -/
theorem empty_list_chat_template
    (register_prompt : List (String × PyVal) → Except String PromptObj)
    (create_prompt : List (String × PyVal) → Except String Unit)
    (g : Bool) (n : String) (hn : pyStrip n ≠ "") :
    _is_chat_template (PyVal.list []) = true ∧
    _validate_template (PyVal.list []) = Except.ok () ∧
    (setPrompt "langfuse" g register_prompt create_prompt (PyVal.str n) (PyVal.list [])
        Option.none Option.none Option.none Option.none Option.none).calls =
      [BackendCall.createPrompt [("name", PyVal.str n), ("type", PyVal.str "chat"), ("prompt", PyVal.list [])]] ∧
    (∀ m, (setPrompt "langfuse" g register_prompt create_prompt (PyVal.str n) (PyVal.list [])
        Option.none Option.none Option.none Option.none Option.none).result ≠
      Except.error (PyError.valueError m)) := by
  refine ⟨rfl, rfl, ?_, ?_⟩ <;>
    rcases hc : create_prompt [("name", PyVal.str n), ("type", PyVal.str "chat"), ("prompt", PyVal.list [])] with e | u <;>
      simp [setPrompt, setPromptLangfuse, _validate_name, _validate_template, _validate_labels,
        _validate_tags, _is_chat_template, hn, hc]

/-- C9 witness at name "greet". -/
theorem empty_list_chat_template_witness :
    pyStrip "greet" ≠ "" ∧
    (setPrompt "langfuse" true (fun _ => Except.error "e") (fun _ => Except.ok ())
        (PyVal.str "greet") (PyVal.list [])
        Option.none Option.none Option.none Option.none Option.none).calls =
      [BackendCall.createPrompt [("name", PyVal.str "greet"), ("type", PyVal.str "chat"), ("prompt", PyVal.list [])]] :=
  ⟨by decide,
   (empty_list_chat_template (fun _ => Except.error "e") (fun _ => Except.ok ())
      true "greet" (by decide)).2.2.1⟩

/-- C10: for the mlflow instance, the positive-version precondition guards
only the name+version form: `get_prompt(name, version=0)` raises a
`ValueError` with no backend call, while `get_prompt(path=p)` for a path
whose version segment is the digit 0 passes the path regex and, with a
non-failing backend load, yields a handle with version 0. -/
theorem mlflow_version_zero_asymmetry
    (load_prompt : String → Except String PromptObj)
    (client_get_prompt : String → Option Int → Option String → Except String (Option PromptObj))
    (obj : PromptObj) (hload : ∀ t, load_prompt t = Except.ok obj)
    (n : String) (hn : n ≠ "")
    (p nm : String) (hp : parsePromptPath p = some (nm, 0)) :
    ((getPrompt "mlflow" load_prompt client_get_prompt (some n) (some 0) Option.none Option.none).calls = []) ∧
    ((getPrompt "mlflow" load_prompt client_get_prompt (some n) (some 0) Option.none Option.none).result =
      Except.error (PyError.valueError "version must be a positive integer")) ∧
    ((getPrompt "mlflow" load_prompt client_get_prompt Option.none Option.none (some p) Option.none).calls =
      [BackendCall.loadPrompt p]) ∧
    ((getPrompt "mlflow" load_prompt client_get_prompt Option.none Option.none (some p) Option.none).result.map
        (fun h => h.version) = Except.ok (some 0)) := by
  have hmatch : matchesPromptPath p = true := by simp [matchesPromptPath, hp]
  refine ⟨?_, ?_, ?_, ?_⟩
  · simp [getPrompt, getPromptMlflow, hn]
  · simp [getPrompt, getPromptMlflow, hn]
  · simp [getPrompt, getPromptMlflow, getPromptMlflowTarget, hmatch, hload, hp, PromptHandle.make,
      Except.map, show _normalize_provider (PyVal.str "mlflow") = Except.ok "mlflow" from rfl]
  · simp [getPrompt, getPromptMlflow, getPromptMlflowTarget, hmatch, hload, hp, PromptHandle.make,
      Except.map, show _normalize_provider (PyVal.str "mlflow") = Except.ok "mlflow" from rfl]

/-- C5: whenever an operation reaches its backend call and that call raises,
the failure is re-raised exactly once (a single backend call, no retry)
wrapped in the operation-specific error kind — `PromptCreationError` for
`set_prompt` (both providers), `PromptFetchError` for `get_prompt` (both
providers), `PromptCompilationError` for `PromptHandle.compile` (both
providers) — and the wrapped message contains the original backend
message and the operation / identifier / provider context. -/
theorem backend_error_wrapping :
    (∀ (e : String) (register_prompt : List (String × PyVal) → Except String PromptObj)
       (create_prompt : List (String × PyVal) → Except String Unit) (n tpl : String),
      pyStrip n ≠ "" →
      (∀ kw, register_prompt kw = Except.error e) →
      (setPrompt "mlflow" true register_prompt create_prompt (PyVal.str n) (PyVal.str tpl)
          Option.none Option.none Option.none Option.none Option.none).calls =
        [BackendCall.registerPrompt [("name", PyVal.str n), ("template", PyVal.str tpl)]] ∧
      (setPrompt "mlflow" true register_prompt create_prompt (PyVal.str n) (PyVal.str tpl)
          Option.none Option.none Option.none Option.none Option.none).result =
        Except.error (PyError.creationError ("MLflow prompt creation failed: " ++ e)) ∧
      strContains ("MLflow prompt creation failed: " ++ e) e) ∧
    (∀ (e : String) (register_prompt : List (String × PyVal) → Except String PromptObj)
       (create_prompt : List (String × PyVal) → Except String Unit) (g : Bool) (n tpl : String),
      pyStrip n ≠ "" →
      (∀ pl, create_prompt pl = Except.error e) →
      (setPrompt "langfuse" g register_prompt create_prompt (PyVal.str n) (PyVal.str tpl)
          Option.none Option.none Option.none Option.none Option.none).calls =
        [BackendCall.createPrompt [("name", PyVal.str n), ("type", PyVal.str "text"), ("prompt", PyVal.str tpl)]] ∧
      (setPrompt "langfuse" g register_prompt create_prompt (PyVal.str n) (PyVal.str tpl)
          Option.none Option.none Option.none Option.none Option.none).result =
        Except.error (PyError.creationError
          ("Langfuse prompt creation failed: " ++ e ++ ". Ensure LANGFUSE credentials are configured.")) ∧
      strContains ("Langfuse prompt creation failed: " ++ e ++ ". Ensure LANGFUSE credentials are configured.") e) ∧
    (∀ (e : String) (load_prompt : String → Except String PromptObj)
       (client_get_prompt : String → Option Int → Option String → Except String (Option PromptObj))
       (p : String),
      matchesPromptPath p = true →
      (∀ t, load_prompt t = Except.error e) →
      (getPrompt "mlflow" load_prompt client_get_prompt Option.none Option.none (some p) Option.none).calls =
        [BackendCall.loadPrompt p] ∧
      (getPrompt "mlflow" load_prompt client_get_prompt Option.none Option.none (some p) Option.none).result =
        Except.error (PyError.fetchError ("MLflow load_prompt failed for \x27" ++ p ++ "\x27: " ++ e)) ∧
      strContains ("MLflow load_prompt failed for \x27" ++ p ++ "\x27: " ++ e) e) ∧
    (∀ (e : String) (load_prompt : String → Except String PromptObj)
       (client_get_prompt : String → Option Int → Option String → Except String (Option PromptObj))
       (n : String),
      n ≠ "" →
      (∀ nm vv ll, client_get_prompt nm vv ll = Except.error e) →
      (getPrompt "langfuse" load_prompt client_get_prompt (some n) Option.none Option.none Option.none).calls =
        [BackendCall.clientGetPrompt n Option.none Option.none] ∧
      (getPrompt "langfuse" load_prompt client_get_prompt (some n) Option.none Option.none Option.none).result =
        Except.error (PyError.fetchError ("Langfuse get_prompt failed for \x27" ++ n ++ "\x27: " ++ e)) ∧
      strContains ("Langfuse get_prompt failed for \x27" ++ n ++ "\x27: " ++ e) e) ∧
    (∀ (e : String) (obj : PromptObj) (nm : Option String) (vv : Option Int)
       (vars : List (String × PyVal)),
      obj.formatFn vars = Except.error e →
      (PromptHandle.compile (PromptHandle.mk "mlflow" obj nm vv) vars).calls =
        [BackendCall.render "mlflow" vars] ∧
      (PromptHandle.compile (PromptHandle.mk "mlflow" obj nm vv) vars).result =
        Except.error (PyError.compilationError ("Failed to compile prompt for provider \x27" ++ "mlflow" ++ "\x27: " ++ e)) ∧
      strContains ("Failed to compile prompt for provider \x27" ++ "mlflow" ++ "\x27: " ++ e) e) ∧
    (∀ (e : String) (obj : PromptObj) (nm : Option String) (vv : Option Int)
       (vars : List (String × PyVal)),
      obj.compileFn vars = Except.error e →
      (PromptHandle.compile (PromptHandle.mk "langfuse" obj nm vv) vars).calls =
        [BackendCall.render "langfuse" vars] ∧
      (PromptHandle.compile (PromptHandle.mk "langfuse" obj nm vv) vars).result =
        Except.error (PyError.compilationError ("Failed to compile prompt for provider \x27" ++ "langfuse" ++ "\x27: " ++ e)) ∧
      strContains ("Failed to compile prompt for provider \x27" ++ "langfuse" ++ "\x27: " ++ e) e) := by
  refine ⟨?_, ?_, ?_, ?_, ?_, ?_⟩
  · intro e register_prompt create_prompt n tpl hn hb
    refine ⟨?_, ?_, strContains_append_left _ _⟩ <;>
      simp [setPrompt, setPromptMlflow, _validate_name, _validate_template, _validate_labels,
        _validate_tags, hn, hb]
  · intro e register_prompt create_prompt g n tpl hn hb
    refine ⟨?_, ?_, strContains_middle _ _ _⟩ <;>
      simp [setPrompt, setPromptLangfuse, _validate_name, _validate_template, _validate_labels,
        _validate_tags, _is_chat_template, hn, hb]
  · intro e load_prompt client_get_prompt p hm hb
    refine ⟨?_, ?_, strContains_append_left _ _⟩ <;>
      simp [getPrompt, getPromptMlflow, getPromptMlflowTarget, hm, hb]
  · intro e load_prompt client_get_prompt n hn hb
    refine ⟨?_, ?_, strContains_append_left _ _⟩ <;>
      simp [getPrompt, getPromptLangfuse, hn, hb]
  · intro e obj nm vv vars hb
    refine ⟨?_, ?_, strContains_append_left _ _⟩ <;>
      simp [PromptHandle.compile, hb]
  · intro e obj nm vv vars hb
    refine ⟨?_, ?_, strContains_append_left _ _⟩ <;>
      simp [PromptHandle.compile, hb]

/-- C5 witness: a backend failure "boom" in the mlflow `set_prompt` call and
in a langfuse handle's `compile` call, each wrapped once. -/
theorem backend_error_wrapping_witness :
    (setPrompt "mlflow" true (fun _ => Except.error "boom") (fun _ => Except.ok ())
        (PyVal.str "n") (PyVal.str "hello")
        Option.none Option.none Option.none Option.none Option.none).result =
      Except.error (PyError.creationError ("MLflow prompt creation failed: " ++ "boom")) ∧
    (PromptHandle.compile
        (PromptHandle.mk "langfuse"
          (PromptObj.mk Option.none Option.none (fun _ => Except.ok PyVal.none) (fun _ => Except.error "boom"))
          Option.none Option.none) []).result =
      Except.error (PyError.compilationError ("Failed to compile prompt for provider \x27" ++ "langfuse" ++ "\x27: " ++ "boom")) :=
  ⟨(backend_error_wrapping.1 "boom" (fun _ => Except.error "boom") (fun _ => Except.ok ())
      "n" "hello" (by decide) (fun _ => rfl)).2.1,
   (backend_error_wrapping.2.2.2.2.2 "boom"
      (PromptObj.mk Option.none Option.none (fun _ => Except.ok PyVal.none) (fun _ => Except.error "boom"))
      Option.none Option.none [] rfl).2.1⟩

/-- C10 witness: `version=0` with name "greet" is rejected, while the path
"prompts:/greet/0" yields a handle with version 0. -/
theorem mlflow_version_zero_asymmetry_witness :
    ((getPrompt "mlflow"
        (fun _ => Except.ok (PromptObj.mk Option.none Option.none
          (fun _ => Except.ok PyVal.none) (fun _ => Except.ok PyVal.none)))
        (fun _ _ _ => Except.error "e")
        (some "greet") (some 0) Option.none Option.none).result =
      Except.error (PyError.valueError "version must be a positive integer")) ∧
    ((getPrompt "mlflow"
        (fun _ => Except.ok (PromptObj.mk Option.none Option.none
          (fun _ => Except.ok PyVal.none) (fun _ => Except.ok PyVal.none)))
        (fun _ _ _ => Except.error "e")
        Option.none Option.none (some "prompts:/greet/0") Option.none).result.map
      (fun h => h.version) = Except.ok (some 0)) :=
  ⟨(mlflow_version_zero_asymmetry
      (fun _ => Except.ok (PromptObj.mk Option.none Option.none
        (fun _ => Except.ok PyVal.none) (fun _ => Except.ok PyVal.none)))
      (fun _ _ _ => Except.error "e")
      (PromptObj.mk Option.none Option.none
        (fun _ => Except.ok PyVal.none) (fun _ => Except.ok PyVal.none))
      (fun _ => rfl) "greet" (by decide) "prompts:/greet/0" "greet" rfl).2.1,
   (mlflow_version_zero_asymmetry
      (fun _ => Except.ok (PromptObj.mk Option.none Option.none
        (fun _ => Except.ok PyVal.none) (fun _ => Except.ok PyVal.none)))
      (fun _ _ _ => Except.error "e")
      (PromptObj.mk Option.none Option.none
        (fun _ => Except.ok PyVal.none) (fun _ => Except.ok PyVal.none))
      (fun _ => rfl) "greet" (by decide) "prompts:/greet/0" "greet" rfl).2.2.2⟩
